import Mathlib

/-!
Verification of the Visionary tool-call orchestrator and its detection
coordinate model. The definitions below are a shallow embedding of the
TypeScript sources: `src/types.ts` (data model), `src/utils/drawUtils.ts`
(coordinate normalization as performed by `drawBoundingBoxes`),
`src/services/visionService.ts` (`runLocalDetection` and its target filter),
`src/services/geminiService.ts` (`runDinoV3`, `runOCR`), and `src/App.tsx`
(`handleSendMessage`, `handleImageUpload`, and the chat tool loop).
JavaScript numbers are modelled as rationals; external effects (the language
model transport, the DETR pipeline, the Gemini OCR call) are modelled as
oracle data supplied in an environment record.
-/

/-- A detection bounding box, embedding the `BoundingBox` interface of
`src/types.ts` together with the extra fields the services attach
(`type`, `coordinateUnit`). -/
structure BoundingBox where
  label : String
  xmin : ℚ
  ymin : ℚ
  xmax : ℚ
  ymax : ℚ
  confidence : Option ℚ
  type : Option String
  coordinateUnit : Option String
deriving DecidableEq

/-- The box normalization performed by `drawBoundingBoxes` in
`src/utils/drawUtils.ts` (lines 18-39): a box whose `coordinateUnit` is
`'pixel'` is used as-is (`x = xmin`, `w = xmax - xmin`, so the drawn corners
are exactly the input corners); otherwise the heuristic
`ymax <= 1.1 && xmax <= 1.1` selects scale 1 (0-1 normalized) or scale 1000,
and each coordinate is divided by the scale and multiplied by the canvas
dimension. The result records the corners of the rectangle that is drawn
(`x`, `y`, `x + w`, `y + h`). No clamping and no degenerate-box check
appears anywhere in the source. -/
def normalizeBox (canvasWidth canvasHeight : ℚ) (box : BoundingBox) : BoundingBox :=
  if box.coordinateUnit = some "pixel" then
    box
  else
    let scale : ℚ := if box.ymax ≤ 11/10 ∧ box.xmax ≤ 11/10 then 1 else 1000
    let x := box.xmin / scale * canvasWidth
    let y := box.ymin / scale * canvasHeight
    let w := (box.xmax - box.xmin) / scale * canvasWidth
    let h := (box.ymax - box.ymin) / scale * canvasHeight
    { box with xmin := x, ymin := y, xmax := x + w, ymax := y + h }

/-- Character-list model of JavaScript `String.prototype.startsWith` used to
build substring search. -/
def leadsWith : List Char → List Char → Bool
  | [], _ => true
  | _ :: _, [] => false
  | a :: as, b :: bs => a == b && leadsWith as bs

/-- Character-list model of JavaScript `String.prototype.includes`:
`occursIn t s` holds when `t` occurs contiguously inside `s`. -/
def occursIn (t : List Char) : List Char → Bool
  | [] => leadsWith t []
  | b :: rest => leadsWith t (b :: rest) || occursIn t rest

/-- One detection matches when some target string occurs inside its
lowercased label, as in `targets.some(t => r.label.toLowerCase().includes(t))`
in `src/services/visionService.ts`. -/
def detMatches (targets : List String) (r : BoundingBox) : Bool :=
  targets.any (fun t => occursIn t.data r.label.toLower.data)

/-- The target-object post-filter of `runLocalDetection`
(`src/services/visionService.ts` lines 89-97): split the filter string on
commas, trim and lowercase; when the first target is nonempty, keep the
detections whose lowercased label contains some target, falling back to the
full list when the filter matches nothing. An empty string is falsy in the
source (`if (targetObjects)`), hence the identity. -/
def applyTargetFilter (targetObjects : String) (results : List BoundingBox) : List BoundingBox :=
  if targetObjects = "" then results
  else
    let targets := (targetObjects.toLower.splitOn ",").map (fun s => s.trim)
    match targets with
    | [] => results
    | t0 :: _ =>
      if t0 = "" then results
      else
        let filtered := results.filter (fun r => detMatches targets r)
        if filtered.isEmpty then results else filtered

/-- A raw item of the DETR pipeline output, as consumed by
`runLocalDetection` (`{ score, label, box: {xmin, ymin, xmax, ymax} }`). -/
structure RawDetection where
  label : String
  score : ℚ
  xmin : ℚ
  ymin : ℚ
  xmax : ℚ
  ymax : ℚ
deriving DecidableEq

/-- The mapping `runLocalDetection` applies to each raw pipeline item:
pixel-space object boxes. -/
def rawToBox (r : RawDetection) : BoundingBox :=
  { label := r.label, xmin := r.xmin, ymin := r.ymin, xmax := r.xmax,
    ymax := r.ymax, confidence := some r.score, type := some "object",
    coordinateUnit := some "pixel" }

/-- A text block of the Gemini OCR JSON response
(`src/services/geminiService.ts`, `runOCR`). -/
structure TextBlock where
  text : String
  xmin : ℚ
  ymin : ℚ
  xmax : ℚ
  ymax : ℚ
deriving DecidableEq

/-- The mapping `runOCR` applies to each parsed text block: a `type: 'text'`
box with no declared coordinate unit. -/
def blockToBox (b : TextBlock) : BoundingBox :=
  { label := b.text, xmin := b.xmin, ymin := b.ymin, xmax := b.xmax,
    ymax := b.ymax, confidence := none, type := some "text",
    coordinateUnit := none }

/-- Who authored a chat message (`Sender` in `src/types.ts`). -/
inductive Sender where
  | user
  | model
  | system
deriving DecidableEq

/-- A chat message; ids and timestamps of the source are irrelevant to the
verified properties and elided. -/
structure Message where
  sender : Sender
  text : String
deriving DecidableEq

/-- Ledger entry status (`ToolLog.status` in `src/types.ts`). -/
inductive Status where
  | pending
  | success
  | error
deriving DecidableEq

/-- The structured value stored in the `toolResult` variable of
`handleSendMessage` (`src/App.tsx` lines 116-158). `noImageError` is the
`{ error: "No image context available for vision tool." }` object; the two
success shapes carry the boxes the capability returned. A `ToolRequest`
whose name matches no branch leaves `toolResult` undefined, modelled as
`none` at the use sites. -/
inductive ToolResult where
  | noImageError
  | dinoSuccess (boxes : List BoundingBox)
  | ocrSuccess (boxes : List BoundingBox)
deriving DecidableEq

/-- A ledger entry (`ToolLog` in `src/types.ts`). `id` models the uuid;
`args` is the `target_objects` argument snapshot; `result` is `none` while
pending and also when the tool produced no value (as
`JSON.stringify(undefined)` is `undefined`). -/
structure ToolLog where
  id : Nat
  toolName : String
  status : Status
  args : Option String
  result : Option ToolResult
deriving DecidableEq

/-- A function call requested by a model turn (`fc` in the source); the only
argument any registered tool reads is `target_objects`. -/
structure FunctionCall where
  name : String
  targetObjects : Option String
deriving DecidableEq

/-- One element of the `functionResponses` array sent back to the model:
`{ functionResponse: { name, response: { result } } }`. -/
structure FunctionResponsePart where
  name : String
  result : Option ToolResult
deriving DecidableEq

/-- A response of the chat transport: optional text plus the requested
function calls (`undefined` modelled as the empty list). -/
structure ModelResponse where
  text : Option String
  functionCalls : List FunctionCall
deriving DecidableEq

/-- A turn sent to the language model by `handleSendMessage`: the initial
user turn (with or without inline image data) or a batched
function-response turn. -/
inductive SentTurn where
  | userTurn (text : String) (withImage : Bool)
  | toolResults (parts : List FunctionResponsePart)
deriving DecidableEq

/-- The React state of `App.tsx` relevant to the orchestration loop, plus a
counter supplying fresh ledger ids (modelling `uuidv4`). -/
structure AppState where
  messages : List Message
  toolLogs : List ToolLog
  isAnalyzing : Bool
  currentImage : Option String
  currentImageBase64 : Option (String × String)
  detections : List BoundingBox
  nextId : Nat
deriving DecidableEq

/-- Oracle data for the external effects of one exchange: the DETR pipeline
outcome (`Except.error` models a rejected promise), the Gemini OCR outcome,
whether the local model is already loaded (`getModelStatus() === 'ready'`),
and the successive results of `chatSession.sendMessage`. -/
structure Env where
  rawDetections : Except String (List RawDetection)
  ocrOutcome : Except String (List TextBlock)
  modelReady : Bool
  responses : List (Except String ModelResponse)

/-- `runLocalDetection` of `src/services/visionService.ts`: map the pipeline
output to pixel-space object boxes, then apply the target filter when a
truthy `targetObjects` string was passed. A pipeline failure propagates as a
thrown error. -/
def runLocalDetection (env : Env) (targetObjects : Option String) :
    Except String (List BoundingBox) :=
  match env.rawDetections with
  | .error e => .error e
  | .ok output =>
    let results := output.map rawToBox
    .ok (match targetObjects with
      | none => results
      | some s => applyTargetFilter s results)

/-- `runDinoV3` of `src/services/geminiService.ts`: calls
`runLocalDetection` and swallows any failure, returning `[]` (the
`try/catch` at lines 47-57). -/
def runDinoV3 (env : Env) (targetObjects : Option String) : List BoundingBox :=
  match runLocalDetection env targetObjects with
  | .ok boxes => boxes
  | .error _ => []

/-- `runOCR` of `src/services/geminiService.ts`: a rejected
`generateContent` call propagates as a thrown error; otherwise the parsed
text blocks are mapped to text boxes (a missing/unparsable response is an
`.ok []` outcome of the oracle). -/
def runOCR (env : Env) : Except String (List BoundingBox) :=
  match env.ocrOutcome with
  | .error e => .error e
  | .ok blocks => .ok (blocks.map blockToBox)

/-- The system message appended when a `dino_v3_detect` call arrives while
the local model is not yet ready (`src/App.tsx` lines 123-130). -/
def downloadingNotice : Message :=
  { sender := Sender.system,
    text := "Downloading Detection Model (approx 50MB)... this happens only once." }

/-- Execution of one requested function call inside the tool loop of
`handleSendMessage` (`src/App.tsx` lines 104-171): append a pending ledger
entry, compute `toolResult` by dispatching on the tool name (no image gives
the error-shaped object; an unknown name leaves the result undefined), and
on completion mark that entry `success` with the result snapshot. A thrown
OCR failure escapes before the entry is updated, so the entry stays
pending. -/
def stepCall (env : Env) (st : AppState) (fc : FunctionCall) :
    Except (String × AppState) (FunctionResponsePart × List BoundingBox × AppState) :=
  let entryId := st.nextId
  let entry : ToolLog :=
    { id := entryId, toolName := fc.name, status := Status.pending,
      args := fc.targetObjects, result := none }
  let st1 : AppState :=
    { st with toolLogs := st.toolLogs ++ [entry], nextId := st.nextId + 1 }
  let finish := fun (st' : AppState) (tr : Option ToolResult) (boxes : List BoundingBox) =>
    let st'' : AppState :=
      { st' with toolLogs := st'.toolLogs.map (fun l =>
          if l.id = entryId then { l with status := Status.success, result := tr } else l) }
    Except.ok (({ name := fc.name, result := tr } : FunctionResponsePart), boxes, st'')
  match st1.currentImage with
  | none => finish st1 (some ToolResult.noImageError) []
  | some _ =>
    if fc.name = "dino_v3_detect" then
      let st2 := if env.modelReady then st1
        else { st1 with messages := st1.messages ++ [downloadingNotice] }
      let boxes := runDinoV3 env fc.targetObjects
      finish st2 (some (ToolResult.dinoSuccess boxes)) boxes
    else if fc.name = "ocr_engine" then
      match st1.currentImageBase64 with
      | some _ =>
        match runOCR env with
        | .error e => .error (e, st1)
        | .ok boxes => finish st1 (some (ToolResult.ocrSuccess boxes)) boxes
      | none => finish st1 none []
    else finish st1 none []

/-- The `for (const fc of functionCalls)` loop of one tool-dispatch round:
accumulates the function responses and the new detections; a thrown
capability failure aborts the round with the state reached so far. -/
def processRound (env : Env) (fcs : List FunctionCall) (st : AppState) :
    Except (String × AppState) (List FunctionResponsePart × List BoundingBox × AppState) :=
  match fcs with
  | [] => .ok ([], [], st)
  | fc :: rest =>
    match stepCall env st fc with
    | .error es => .error es
    | .ok (part, boxes, st1) =>
      match processRound env rest st1 with
      | .error es => .error es
      | .ok (parts, dets, st2) => .ok (part :: parts, boxes ++ dets, st2)

/-- The `if (newDetections.length > 0) setDetections(...)` step at the end
of one tool-dispatch round (`src/App.tsx` lines 173-175). -/
def mergeDetections (st1 : AppState) (newDets : List BoundingBox) : AppState :=
  if 0 < newDets.length
  then { st1 with detections := st1.detections ++ newDets }
  else st1

/-- The `while (functionCalls && functionCalls.length > 0)` loop of
`handleSendMessage` (`src/App.tsx` lines 100-182), continued: process the
round, merge the accumulated detections, send all function responses as a
single follow-up turn, and continue with the transport's next response.
Recursion is on the remaining transport script. -/
def toolLoop (env : Env) :
    List (Except String ModelResponse) → ModelResponse → AppState → List SentTurn →
    Except (String × AppState × List SentTurn) (ModelResponse × AppState × List SentTurn)
  | [], resp, st, trace =>
    match resp.functionCalls with
    | [] => .ok (resp, st, trace)
    | fc :: fcs =>
      match processRound env (fc :: fcs) st with
      | .error (e, st') => .error (e, st', trace)
      | .ok (parts, newDets, st1) =>
        .error ("no response", mergeDetections st1 newDets,
          trace ++ [SentTurn.toolResults parts])
  | e :: rest, resp, st, trace =>
    match resp.functionCalls with
    | [] => .ok (resp, st, trace)
    | fc :: fcs =>
      match processRound env (fc :: fcs) st with
      | .error (er, st') => .error (er, st', trace)
      | .ok (parts, newDets, st1) =>
        let st2 := mergeDetections st1 newDets
        let trace1 := trace ++ [SentTurn.toolResults parts]
        match e with
        | .error m => .error (m, st2, trace1)
        | .ok r => toolLoop env rest r st2 trace1

/-- `handleSendMessage` of `src/App.tsx` (lines 70-206): append the user
message, set `isAnalyzing`, send the initial turn (with inline image data
when present), run the tool loop, append the final model text when truthy,
and translate any thrown failure into a single system `Agent Error` message
(the outer `catch`); `isAnalyzing` is reset in all paths (the `finally`).
Returns the final state together with the ordered trace of turns sent to the
model. -/
def handleSendMessage (env : Env) (text : String) (st : AppState) :
    AppState × List SentTurn :=
  let st1 : AppState :=
    { st with
      messages := st.messages ++ [{ sender := Sender.user, text := text }],
      isAnalyzing := true }
  let trace0 := [SentTurn.userTurn text st1.currentImageBase64.isSome]
  let failWith := fun (m : String) (st' : AppState) (tr : List SentTurn) =>
    (({ st' with
        messages := st'.messages ++ [{ sender := Sender.system, text := "Agent Error: " ++ m }],
        isAnalyzing := false } : AppState), tr)
  match env.responses with
  | [] => failWith "no response" st1 trace0
  | (.error m) :: _ => failWith m st1 trace0
  | (.ok r) :: rest =>
    match toolLoop env rest r st1 trace0 with
    | .error (m, st2, tr2) => failWith m st2 tr2
    | .ok (finalResp, st2, tr2) =>
      let st3 : AppState := match finalResp.text with
        | some t =>
          if t = "" then st2
          else { st2 with messages := st2.messages ++ [{ sender := Sender.model, text := t }] }
        | none => st2
      ({ st3 with isAnalyzing := false }, tr2)

/-- The outcome of `processImage` plus the object URL for a successfully
ingested file. -/
structure ProcessedImage where
  url : String
  base64 : String
  mime : String
deriving DecidableEq

/-- `handleImageUpload` of `src/App.tsx` (lines 45-68): on success the
active image is replaced, the detections are cleared, and a system message
is recorded; on failure only an error message is recorded. -/
def handleImageUpload (outcome : Except String ProcessedImage)
    (fileName : String) (st : AppState) : AppState :=
  match outcome with
  | .ok p =>
    { st with
      currentImage := some p.url,
      currentImageBase64 := some (p.base64, p.mime),
      detections := [],
      messages := st.messages ++
        [{ sender := Sender.system, text := "Image uploaded: " ++ fileName }] }
  | .error e =>
    { st with
      messages := st.messages ++
        [{ sender := Sender.system, text := "Error processing image: " ++ e }] }

/-- `handleSubmit` of `src/components/ChatArea.tsx`: an empty (trimmed)
input or an in-flight analysis drops the submission; otherwise the raw
input is handed to `onSendMessage`. -/
def handleSubmit (input : String) (isAnalyzing : Bool) : Option String :=
  if (input.trim == "") || isAnalyzing then none else some input

/-- The tool names a sent turn carries: `none` for the user turn, the listed
function-response names for a batched tool-results turn. -/
def turnResultNames : SentTurn → Option (List String)
  | SentTurn.userTurn _ _ => none
  | SentTurn.toolResults ps => some (ps.map (fun p => p.name))

theorem occursIn_nil (s : List Char) : occursIn [] s = true := by
  cases s <;> simp [occursIn, leadsWith]

theorem detMatches_empty_head (ts : List String) (r : BoundingBox) :
    detMatches ("" :: ts) r = true := by
  have hd : ("" : String).data = [] := rfl
  simp [detMatches, hd, occursIn_nil]

/-- C9: normalization is a pass-through on detections already in pixel
space, hence idempotent there: `normalize(normalize(d)) == normalize(d)`. -/
theorem c9_pixel_idempotent (cw ch : ℚ) (b : BoundingBox)
    (hb : b.coordinateUnit = some "pixel") :
    normalizeBox cw ch b = b ∧
      normalizeBox cw ch (normalizeBox cw ch b) = normalizeBox cw ch b := by
  have h1 : normalizeBox cw ch b = b := by simp [normalizeBox, hb]
  exact ⟨h1, by rw [h1, h1]⟩

/-- Witness for C9 at a concrete pixel-space detection. -/
theorem c9_pixel_idempotent_witness :
    ({ label := "cat", xmin := 10, ymin := 20, xmax := 30, ymax := 40,
       confidence := some (9/10), type := some "object",
       coordinateUnit := some "pixel" } : BoundingBox).coordinateUnit = some "pixel" ∧
    (normalizeBox 640 480
        { label := "cat", xmin := 10, ymin := 20, xmax := 30, ymax := 40,
          confidence := some (9/10), type := some "object",
          coordinateUnit := some "pixel" } =
      { label := "cat", xmin := 10, ymin := 20, xmax := 30, ymax := 40,
        confidence := some (9/10), type := some "object",
        coordinateUnit := some "pixel" } ∧
      normalizeBox 640 480 (normalizeBox 640 480
        { label := "cat", xmin := 10, ymin := 20, xmax := 30, ymax := 40,
          confidence := some (9/10), type := some "object",
          coordinateUnit := some "pixel" }) =
        normalizeBox 640 480
          { label := "cat", xmin := 10, ymin := 20, xmax := 30, ymax := 40,
            confidence := some (9/10), type := some "object",
            coordinateUnit := some "pixel" }) :=
  ⟨rfl, c9_pixel_idempotent 640 480 _ rfl⟩

/-- C8: a box `(0.5, 0.5, 1.0, 1.0)` with no pixel unit on an 800 by 600
image is inferred normalized (max coordinate at most 1.1) and scales to the
pixel box `(400, 300, 800, 600)`. -/
theorem c8_normalized01 (label : String) (conf : Option ℚ) (ty u : Option String)
    (hu : u ≠ some "pixel") :
    normalizeBox 800 600
        { label := label, xmin := 1/2, ymin := 1/2, xmax := 1, ymax := 1,
          confidence := conf, type := ty, coordinateUnit := u } =
      { label := label, xmin := 400, ymin := 300, xmax := 800, ymax := 600,
        confidence := conf, type := ty, coordinateUnit := u } := by
  simp only [normalizeBox, if_neg hu]
  norm_num

/-- Witness for C8 with an unspecified coordinate space. -/
theorem c8_normalized01_witness :
    (none : Option String) ≠ some "pixel" ∧
    normalizeBox 800 600
        { label := "box", xmin := 1/2, ymin := 1/2, xmax := 1, ymax := 1,
          confidence := none, type := none, coordinateUnit := none } =
      { label := "box", xmin := 400, ymin := 300, xmax := 800, ymax := 600,
        confidence := none, type := none, coordinateUnit := none } :=
  ⟨by decide, c8_normalized01 "box" none none none (by decide)⟩

/-- C2 counterexample: the box `(0, 0, 500, 500)` in 0-1000 space on a
1000 by 500 image does not normalize to `(0, 0, 250, 250)` as claimed: the
code computes `xmax = 500/1000 * 1000 = 500`, not 250. -/
theorem c2_normalized1000_counterexample :
    ¬ (normalizeBox 1000 500
        { label := "o", xmin := 0, ymin := 0, xmax := 500, ymax := 500,
          confidence := none, type := none, coordinateUnit := none } =
      { label := "o", xmin := 0, ymin := 0, xmax := 250, ymax := 250,
        confidence := none, type := none, coordinateUnit := none }) := by
  have hres : normalizeBox 1000 500
      { label := "o", xmin := 0, ymin := 0, xmax := 500, ymax := 500,
        confidence := none, type := none, coordinateUnit := none } =
      { label := "o", xmin := 0, ymin := 0, xmax := 500, ymax := 250,
        confidence := none, type := none, coordinateUnit := none } := by
    simp only [normalizeBox,
      if_neg (by decide : ¬ ((none : Option String) = some "pixel"))]
    norm_num
  rw [hres]
  simp only [BoundingBox.mk.injEq, not_and]
  intro _ _ _ h
  norm_num at h

/-- C2 amended: each axis is scaled by its own image dimension, so the box
`(0, 0, 500, 500)` in 0-1000 space on a 1000 by 500 image normalizes to
`(0, 0, 500, 250)`. -/
theorem c2_normalized1000_amended (label : String) (conf : Option ℚ)
    (ty u : Option String) (hu : u ≠ some "pixel") :
    normalizeBox 1000 500
        { label := label, xmin := 0, ymin := 0, xmax := 500, ymax := 500,
          confidence := conf, type := ty, coordinateUnit := u } =
      { label := label, xmin := 0, ymin := 0, xmax := 500, ymax := 250,
        confidence := conf, type := ty, coordinateUnit := u } := by
  simp only [normalizeBox, if_neg hu]
  norm_num

/-- Witness for the amended C2 with an unspecified coordinate space. -/
theorem c2_normalized1000_amended_witness :
    (none : Option String) ≠ some "pixel" ∧
    normalizeBox 1000 500
        { label := "o", xmin := 0, ymin := 0, xmax := 500, ymax := 500,
          confidence := none, type := none, coordinateUnit := none } =
      { label := "o", xmin := 0, ymin := 0, xmax := 500, ymax := 250,
        confidence := none, type := none, coordinateUnit := none } :=
  ⟨by decide, c2_normalized1000_amended "o" none none none (by decide)⟩

/-- C5 counterexample: the normalizer neither clamps to the image
dimensions nor drops degenerate boxes: the box `(500, 0, 400, 20000)` on a
100 by 100 image is produced with `xmax < xmin` (degenerate, rendered
anyway) and `ymax = 2000` far beyond the image height (no clamping), so the
claimed invariant `0 ≤ xmin < xmax ≤ imageWidth`, `ymax ≤ imageHeight`
fails for a produced box. -/
theorem c5_no_clamping_counterexample :
    ¬ ((normalizeBox 100 100
          { label := "t", xmin := 500, ymin := 0, xmax := 400, ymax := 20000,
            confidence := none, type := none, coordinateUnit := none }).xmin <
        (normalizeBox 100 100
          { label := "t", xmin := 500, ymin := 0, xmax := 400, ymax := 20000,
            confidence := none, type := none, coordinateUnit := none }).xmax) ∧
    ¬ ((normalizeBox 100 100
          { label := "t", xmin := 500, ymin := 0, xmax := 400, ymax := 20000,
            confidence := none, type := none, coordinateUnit := none }).ymax ≤ 100) := by
  have hres : normalizeBox 100 100
      { label := "t", xmin := 500, ymin := 0, xmax := 400, ymax := 20000,
        confidence := none, type := none, coordinateUnit := none } =
      { label := "t", xmin := 50, ymin := 0, xmax := 40, ymax := 2000,
        confidence := none, type := none, coordinateUnit := none } := by
    simp only [normalizeBox,
      if_neg (by decide : ¬ ((none : Option String) = some "pixel"))]
    norm_num
  rw [hres]
  norm_num

/-- C5 amended: the code performs no clamping and no degenerate-box check,
so the invariant `0 ≤ xmin < xmax ≤ imageWidth`, `0 ≤ ymin < ymax ≤
imageHeight` holds for the produced box only when the input already
guarantees it; in particular it does hold for a non-pixel box whose
coordinates satisfy `0 ≤ min < max ≤ 1` on an image with positive
dimensions. -/
theorem c5_invariant_amended (cw ch : ℚ) (b : BoundingBox)
    (hw : 0 < cw) (hh : 0 < ch) (hu : b.coordinateUnit ≠ some "pixel")
    (h1 : 0 ≤ b.xmin) (h2 : b.xmin < b.xmax) (h3 : b.xmax ≤ 1)
    (h4 : 0 ≤ b.ymin) (h5 : b.ymin < b.ymax) (h6 : b.ymax ≤ 1) :
    0 ≤ (normalizeBox cw ch b).xmin ∧
    (normalizeBox cw ch b).xmin < (normalizeBox cw ch b).xmax ∧
    (normalizeBox cw ch b).xmax ≤ cw ∧
    0 ≤ (normalizeBox cw ch b).ymin ∧
    (normalizeBox cw ch b).ymin < (normalizeBox cw ch b).ymax ∧
    (normalizeBox cw ch b).ymax ≤ ch := by
  have hcond : b.ymax ≤ 11/10 ∧ b.xmax ≤ 11/10 :=
    ⟨h6.trans (by norm_num), h3.trans (by norm_num)⟩
  simp only [normalizeBox, if_neg hu, if_pos hcond]
  norm_num
  refine ⟨?_, ?_, ?_, ?_, ?_, ?_⟩
  · exact mul_nonneg h1 hw.le
  · nlinarith
  · nlinarith
  · exact mul_nonneg h4 hh.le
  · nlinarith
  · nlinarith

/-- Witness for the amended C5 at a concrete in-range normalized box. -/
theorem c5_invariant_amended_witness :
    (0 : ℚ) < 80 ∧ (0 : ℚ) < 60 ∧
    ({ label := "w", xmin := 1/4, ymin := 1/10, xmax := 3/4, ymax := 1/2,
       confidence := none, type := none,
       coordinateUnit := none } : BoundingBox).coordinateUnit ≠ some "pixel" ∧
    (0 ≤ (normalizeBox 80 60
        { label := "w", xmin := 1/4, ymin := 1/10, xmax := 3/4, ymax := 1/2,
          confidence := none, type := none, coordinateUnit := none }).xmin ∧
      (normalizeBox 80 60
        { label := "w", xmin := 1/4, ymin := 1/10, xmax := 3/4, ymax := 1/2,
          confidence := none, type := none, coordinateUnit := none }).xmin <
        (normalizeBox 80 60
        { label := "w", xmin := 1/4, ymin := 1/10, xmax := 3/4, ymax := 1/2,
          confidence := none, type := none, coordinateUnit := none }).xmax ∧
      (normalizeBox 80 60
        { label := "w", xmin := 1/4, ymin := 1/10, xmax := 3/4, ymax := 1/2,
          confidence := none, type := none, coordinateUnit := none }).xmax ≤ 80 ∧
      0 ≤ (normalizeBox 80 60
        { label := "w", xmin := 1/4, ymin := 1/10, xmax := 3/4, ymax := 1/2,
          confidence := none, type := none, coordinateUnit := none }).ymin ∧
      (normalizeBox 80 60
        { label := "w", xmin := 1/4, ymin := 1/10, xmax := 3/4, ymax := 1/2,
          confidence := none, type := none, coordinateUnit := none }).ymin <
        (normalizeBox 80 60
        { label := "w", xmin := 1/4, ymin := 1/10, xmax := 3/4, ymax := 1/2,
          confidence := none, type := none, coordinateUnit := none }).ymax ∧
      (normalizeBox 80 60
        { label := "w", xmin := 1/4, ymin := 1/10, xmax := 3/4, ymax := 1/2,
          confidence := none, type := none, coordinateUnit := none }).ymax ≤ 60) :=
  ⟨by norm_num, by norm_num, by decide,
    c5_invariant_amended 80 60 _ (by norm_num) (by norm_num) (by decide)
      (by norm_num) (by norm_num) (by norm_num) (by norm_num) (by norm_num)
      (by norm_num)⟩

/-- C7: a successful image upload replaces the active image and clears the
aggregated detections entirely; the snapshot immediately after the swap is
empty, so no detection from a prior image survives. -/
theorem c7_image_swap_clears (p : ProcessedImage) (fileName : String) (st : AppState) :
    (handleImageUpload (.ok p) fileName st).detections = [] ∧
    (handleImageUpload (.ok p) fileName st).currentImage = some p.url ∧
    (handleImageUpload (.ok p) fileName st).currentImageBase64 = some (p.base64, p.mime) :=
  ⟨rfl, rfl, rfl⟩

/-- C4 counterexample: a call made while a loop is in flight
(`isAnalyzing = true`) is not rejected: it runs and mutates the ledger, so
it neither fails with a busy error nor leaves the ledger unchanged. -/
theorem c4_busy_counterexample :
    (handleSendMessage
        { rawDetections := .ok [],
          ocrOutcome := .ok [],
          modelReady := true,
          responses :=
            [.ok { text := none,
                   functionCalls := [{ name := "dino_v3_detect", targetObjects := none }] },
             .ok { text := some "done", functionCalls := [] }] }
        "again"
        { messages := [], toolLogs := [], isAnalyzing := true,
          currentImage := some "blob:1",
          currentImageBase64 := some ("d", "image/png"),
          detections := [], nextId := 0 }).1.toolLogs ≠
      ({ messages := [], toolLogs := [], isAnalyzing := true,
         currentImage := some "blob:1",
         currentImageBase64 := some ("d", "image/png"),
         detections := [], nextId := 0 } : AppState).toolLogs := by
  decide

/-- C4 amended: there is no reentrancy guard and no busy error in the core:
`handleSendMessage` behaves identically whatever the in-flight flag says
(it can mutate the ledger, see the counterexample), and the UI layer merely
drops submissions while a loop is in flight, without raising anything. -/
theorem c4_no_reentrancy_guard :
    (∀ (env : Env) (text : String) (st : AppState) (b1 b2 : Bool),
        handleSendMessage env text { st with isAnalyzing := b1 } =
          handleSendMessage env text { st with isAnalyzing := b2 }) ∧
    (∀ input : String, handleSubmit input true = none) :=
  ⟨fun _ _ _ _ _ => rfl, fun input => by simp [handleSubmit]⟩

/-- C10: with a truthy filter string, `runLocalDetection` returns exactly
the detections whose lowercased label contains one of the comma-split,
trimmed, lowercased targets (in their original order) when at least one
detection matches, and the complete unfiltered list when none does. -/
theorem c10_target_filter (env : Env) (raw : List RawDetection) (s : String)
    (hraw : env.rawDetections = .ok raw) (hs : s ≠ "") :
    runLocalDetection env (some s) =
      .ok (if (raw.map rawToBox).any
              (fun r => detMatches ((s.toLower.splitOn ",").map (fun x => x.trim)) r)
           then (raw.map rawToBox).filter
              (fun r => detMatches ((s.toLower.splitOn ",").map (fun x => x.trim)) r)
           else raw.map rawToBox) := by
  have hstep : runLocalDetection env (some s) =
      .ok (applyTargetFilter s (raw.map rawToBox)) := by
    unfold runLocalDetection
    rw [hraw]
  rw [hstep]
  simp only [Except.ok.injEq]
  simp only [applyTargetFilter, if_neg hs]
  set results := raw.map rawToBox with hres
  generalize ((s.toLower.splitOn ",").map (fun x => x.trim)) = targets
  rcases targets with _ | ⟨t0, ts⟩
  case nil =>
    simp [detMatches]
  case cons =>
    by_cases h0 : t0 = ""
    · subst h0
      have hall : ∀ r : BoundingBox, detMatches ("" :: ts) r = true :=
        fun r => detMatches_empty_head ts r
      have hfil : results.filter (fun r => detMatches ("" :: ts) r) = results :=
        List.filter_eq_self.mpr (fun a _ => hall a)
      cases hany : results.any (fun r => detMatches ("" :: ts) r)
      · simp [hany]
      · simp [hany, hfil]
    · simp only [if_neg h0]
      cases hany : results.any (fun r => detMatches (t0 :: ts) r)
      · have hfil : results.filter (fun r => detMatches (t0 :: ts) r) = [] := by
          rw [List.filter_eq_nil_iff]
          intro a ha
          have := List.any_eq_false.mp hany a ha
          simp [this]
        simp [hany, hfil]
      · obtain ⟨x, hx, hpx⟩ := List.any_eq_true.mp hany
        have hne : results.filter (fun r => detMatches (t0 :: ts) r) ≠ [] := by
          intro hnil
          have hxmem : x ∈ results.filter (fun r => detMatches (t0 :: ts) r) :=
            List.mem_filter.mpr ⟨hx, hpx⟩
          rw [hnil] at hxmem
          exact absurd hxmem (List.not_mem_nil x)
        have hemp : (results.filter (fun r => detMatches (t0 :: ts) r)).isEmpty = false := by
          cases hf : results.filter (fun r => detMatches (t0 :: ts) r)
          · exact absurd hf hne
          · rfl
        simp [hany, hemp]

/-- Concrete pipeline output for the C10 witness. -/
def c10Raw1 : RawDetection :=
  { label := "cat", score := 9/10, xmin := 0, ymin := 0, xmax := 10, ymax := 10 }

/-- Second concrete pipeline output for the C10 witness. -/
def c10Raw2 : RawDetection :=
  { label := "dog", score := 8/10, xmin := 5, ymin := 5, xmax := 20, ymax := 20 }

/-- Concrete environment for the C10 witness. -/
def c10Env : Env :=
  { rawDetections := .ok [c10Raw1, c10Raw2], ocrOutcome := .ok [],
    modelReady := true, responses := [] }

/-- Witness for C10 at a concrete filter string and detection list. -/
theorem c10_target_filter_witness :
    c10Env.rawDetections = .ok [c10Raw1, c10Raw2] ∧ "Cat, bird" ≠ "" ∧
    runLocalDetection c10Env (some "Cat, bird") =
      .ok (if ([c10Raw1, c10Raw2].map rawToBox).any
              (fun r => detMatches ((("Cat, bird" : String).toLower.splitOn ",").map (fun x => x.trim)) r)
           then ([c10Raw1, c10Raw2].map rawToBox).filter
              (fun r => detMatches ((("Cat, bird" : String).toLower.splitOn ",").map (fun x => x.trim)) r)
           else [c10Raw1, c10Raw2].map rawToBox) :=
  ⟨rfl, by decide,
    c10_target_filter c10Env [c10Raw1, c10Raw2] "Cat, bird" rfl (by decide)⟩

theorem logsMap_name (logs : List ToolLog) (e : ToolLog) (i : Nat)
    (tr : Option ToolResult) :
    ((logs ++ [e]).map (fun l =>
        if l.id = i then { l with status := Status.success, result := tr } else l)).map
      ToolLog.toolName = logs.map ToolLog.toolName ++ [e.toolName] := by
  rw [List.map_map]
  have h : ∀ l ∈ logs ++ [e],
      (ToolLog.toolName ∘ fun l =>
        if l.id = i then { l with status := Status.success, result := tr } else l) l =
      ToolLog.toolName l := by
    intro l _
    by_cases hid : l.id = i <;> simp [hid]
  rw [List.map_congr_left h]
  simp

theorem toolNameUpdate (i : Nat) (tr : Option ToolResult) (a : ToolLog) :
    (if a.id = i then { a with status := Status.success, result := tr } else a).toolName =
      a.toolName := by
  by_cases h : a.id = i <;> simp [h]

theorem stepCall_ok_spec (env : Env) (st : AppState) (fc : FunctionCall)
    (blocks : List TextBlock) (hocr : env.ocrOutcome = .ok blocks) :
    ∃ tr boxes st2,
      stepCall env st fc = .ok ({ name := fc.name, result := tr }, boxes, st2) ∧
      st2.toolLogs.map ToolLog.toolName = st.toolLogs.map ToolLog.toolName ++ [fc.name] ∧
      st2.currentImage = st.currentImage ∧
      st2.currentImageBase64 = st.currentImageBase64 ∧
      st2.detections = st.detections := by
  cases himg : st.currentImage with
  | none =>
    simp only [stepCall, himg]
    refine ⟨some ToolResult.noImageError, [], _, rfl, ?_, ?_, ?_, ?_⟩ <;>
      simp [logsMap_name, toolNameUpdate, himg]
  | some url =>
    by_cases h1 : fc.name = "dino_v3_detect"
    · cases hready : env.modelReady with
      | true =>
        simp only [stepCall, himg, h1, hready, eq_self_iff_true, if_true, if_pos]
        refine ⟨some (ToolResult.dinoSuccess (runDinoV3 env fc.targetObjects)),
          runDinoV3 env fc.targetObjects, _, rfl, ?_, ?_, ?_, ?_⟩ <;>
          simp [logsMap_name, toolNameUpdate, himg, h1]
      | false =>
        simp only [stepCall, himg, h1, hready, eq_self_iff_true, if_true,
          Bool.false_eq_true, if_false]
        refine ⟨some (ToolResult.dinoSuccess (runDinoV3 env fc.targetObjects)),
          runDinoV3 env fc.targetObjects, _, rfl, ?_, ?_, ?_, ?_⟩ <;>
          simp [logsMap_name, toolNameUpdate, himg, h1]
    · by_cases h2 : fc.name = "ocr_engine"
      · cases hb64 : st.currentImageBase64 with
        | none =>
          simp only [stepCall, himg, h1, h2, hb64, eq_self_iff_true, if_true,
            if_neg h1]
          refine ⟨none, [], _, rfl, ?_, ?_, ?_, ?_⟩ <;>
            simp [logsMap_name, toolNameUpdate, himg, hb64]
        | some p =>
          simp only [stepCall, himg, h1, h2, hb64, eq_self_iff_true, if_true,
            if_neg h1, runOCR, hocr]
          refine ⟨some (ToolResult.ocrSuccess (blocks.map blockToBox)),
            blocks.map blockToBox, _, rfl, ?_, ?_, ?_, ?_⟩ <;>
            simp [logsMap_name, toolNameUpdate, himg, hb64]
      · simp only [stepCall, himg, if_neg h1, if_neg h2]
        refine ⟨none, [], _, rfl, ?_, ?_, ?_, ?_⟩ <;>
          simp [logsMap_name, toolNameUpdate, himg]

theorem mergeDetections_toolLogs (stX : AppState) (d : List BoundingBox) :
    (mergeDetections stX d).toolLogs = stX.toolLogs := by
  unfold mergeDetections
  split <;> rfl

theorem processRound_two_spec (env : Env) (st : AppState) (fc1 fc2 : FunctionCall)
    (blocks : List TextBlock) (hocr : env.ocrOutcome = .ok blocks) :
    ∃ tr1 tr2 dets st2,
      processRound env [fc1, fc2] st =
        .ok ([{ name := fc1.name, result := tr1 },
              { name := fc2.name, result := tr2 }], dets, st2) ∧
      st2.toolLogs.map ToolLog.toolName =
        st.toolLogs.map ToolLog.toolName ++ [fc1.name, fc2.name] := by
  obtain ⟨tr1, b1, stA, he1, hn1, _, _, _⟩ := stepCall_ok_spec env st fc1 blocks hocr
  obtain ⟨tr2, b2, stB, he2, hn2, _, _, _⟩ := stepCall_ok_spec env stA fc2 blocks hocr
  refine ⟨tr1, tr2, b1 ++ (b2 ++ []), stB, ?_, ?_⟩
  · simp [processRound, he1, he2]
  · rw [hn2, hn1]
    simp

/-- C3: a model turn yielding exactly two tool requests produces exactly two
new ledger entries (bearing the two tool names, in order) and exactly one
follow-up model turn carrying both results, never two separate follow-up
turns: the full trace is the initial user turn followed by a single batched
tool-results turn naming both requests in order. Stated for dispatches that
do not throw (`see C1` for a throwing capability). -/
theorem c3_two_requests_one_followup (env : Env) (text : String) (st : AppState)
    (fc1 fc2 : FunctionCall) (rt ft : Option String) (blocks : List TextBlock)
    (hocr : env.ocrOutcome = .ok blocks)
    (hresp : env.responses =
      [.ok { text := rt, functionCalls := [fc1, fc2] },
       .ok { text := ft, functionCalls := [] }]) :
    ((handleSendMessage env text st).2).map turnResultNames =
        [none, some [fc1.name, fc2.name]] ∧
    (handleSendMessage env text st).1.toolLogs.map ToolLog.toolName =
        st.toolLogs.map ToolLog.toolName ++ [fc1.name, fc2.name] ∧
    (handleSendMessage env text st).1.toolLogs.length = st.toolLogs.length + 2 := by
  obtain ⟨tr1, tr2, dets, st2, hpr, hnames⟩ :=
    processRound_two_spec env
      { st with
        messages := st.messages ++ [{ sender := Sender.user, text := text }],
        isAnalyzing := true } fc1 fc2 blocks hocr
  have hnames' : st2.toolLogs.map ToolLog.toolName =
      st.toolLogs.map ToolLog.toolName ++ [fc1.name, fc2.name] := by
    simpa using hnames
  have hlen : st2.toolLogs.length = st.toolLogs.length + 2 := by
    have := congrArg List.length hnames'
    simpa using this
  cases ft with
  | none =>
    simp only [handleSendMessage, hresp, toolLoop, hpr, mergeDetections_toolLogs]
    refine ⟨?_, ?_, ?_⟩
    · simp [turnResultNames]
    · simpa [mergeDetections_toolLogs] using hnames'
    · simpa [mergeDetections_toolLogs] using hlen
  | some t =>
    by_cases htx : t = ""
    · simp only [handleSendMessage, hresp, toolLoop, hpr, mergeDetections_toolLogs, htx,
        if_pos]
      refine ⟨?_, ?_, ?_⟩
      · simp [turnResultNames]
      · simpa [mergeDetections_toolLogs] using hnames'
      · simpa [mergeDetections_toolLogs] using hlen
    · simp only [handleSendMessage, hresp, toolLoop, hpr, mergeDetections_toolLogs,
        if_neg htx]
      refine ⟨?_, ?_, ?_⟩
      · simp [turnResultNames]
      · simpa [mergeDetections_toolLogs] using hnames'
      · simpa [mergeDetections_toolLogs] using hlen

/-- C1 amended: a capability that throws (here the OCR call, whose
`generateContent` rejection is not caught inside the loop) aborts the whole
exchange through the outer catch: a single `Agent Error` system message is
recorded, the ledger entry for the throwing call remains `pending` — it is
never marked `error`, as the loop only ever writes `success` — no follow-up
turn is sent, and the aggregated detections are untouched. Only the object
detector, which swallows its own failures and returns `[]`, lets the loop
continue. -/
theorem c1_capability_throw_amended (env : Env) (text m url : String)
    (st : AppState) (rt : Option String) (args : Option String)
    (rest : List (Except String ModelResponse)) (p : String × String)
    (hresp : env.responses =
      .ok { text := rt,
            functionCalls := [{ name := "ocr_engine", targetObjects := args }] } :: rest)
    (hocr : env.ocrOutcome = .error m)
    (himg : st.currentImage = some url)
    (hb64 : st.currentImageBase64 = some p) :
    (handleSendMessage env text st).1.messages =
      st.messages ++ [{ sender := Sender.user, text := text },
        { sender := Sender.system, text := "Agent Error: " ++ m }] ∧
    (handleSendMessage env text st).1.toolLogs =
      st.toolLogs ++ [{ id := st.nextId,
                        toolName := "ocr_engine",
                        status := Status.pending,
                        args := args,
                        result := none }] ∧
    (handleSendMessage env text st).1.detections = st.detections ∧
    (handleSendMessage env text st).2 = [SentTurn.userTurn text true] := by
  cases rest with
  | nil =>
    simp only [handleSendMessage, hresp, toolLoop, processRound, stepCall, runOCR,
      hocr, himg, hb64,
      if_neg (show ¬ ("ocr_engine" : String) = "dino_v3_detect" by decide),
      eq_self_iff_true, if_true]
    refine ⟨?_, ?_, ?_, ?_⟩ <;> simp [hb64]
  | cons e rest' =>
    simp only [handleSendMessage, hresp, toolLoop, processRound, stepCall, runOCR,
      hocr, himg, hb64,
      if_neg (show ¬ ("ocr_engine" : String) = "dino_v3_detect" by decide),
      eq_self_iff_true, if_true]
    refine ⟨?_, ?_, ?_, ?_⟩ <;> simp [hb64]

/-- Concrete environment for C1: the model requests one OCR call and the
OCR transport rejects. -/
def c1Env : Env :=
  { rawDetections := .ok [],
    ocrOutcome := .error "ocr down",
    modelReady := true,
    responses :=
      [.ok { text := none,
             functionCalls := [{ name := "ocr_engine", targetObjects := none }] }] }

/-- Concrete starting state for C1: an image is loaded, both stores empty. -/
def c1State : AppState :=
  { messages := [], toolLogs := [], isAnalyzing := false,
    currentImage := some "blob:img", currentImageBase64 := some ("d", "image/png"),
    detections := [], nextId := 0 }

/-- C1 counterexample: when the invoked OCR capability throws, the ledger
entry does not end with `status = error` (it stays `pending`), and no
error-shaped result is fed back to the model: the trace contains no
follow-up tool-results turn at all — the exchange aborts. -/
theorem c1_capability_throw_counterexample :
    (handleSendMessage c1Env "read" c1State).1.toolLogs.map ToolLog.status ≠
        [Status.error] ∧
    (handleSendMessage c1Env "read" c1State).1.toolLogs.map ToolLog.status =
        [Status.pending] ∧
    (handleSendMessage c1Env "read" c1State).2.map turnResultNames = [none] := by
  decide

/-- Witness for the amended C1 at the concrete throwing environment. -/
theorem c1_capability_throw_witness :
    c1Env.responses =
      .ok { text := none,
            functionCalls := [{ name := "ocr_engine", targetObjects := none }] } :: [] ∧
    c1Env.ocrOutcome = .error "ocr down" ∧
    c1State.currentImage = some "blob:img" ∧
    c1State.currentImageBase64 = some ("d", "image/png") ∧
    ((handleSendMessage c1Env "read" c1State).1.messages =
      c1State.messages ++ [{ sender := Sender.user, text := "read" },
        { sender := Sender.system, text := "Agent Error: " ++ "ocr down" }] ∧
    (handleSendMessage c1Env "read" c1State).1.toolLogs =
      c1State.toolLogs ++ [{ id := c1State.nextId,
                             toolName := "ocr_engine",
                             status := Status.pending,
                             args := none,
                             result := none }] ∧
    (handleSendMessage c1Env "read" c1State).1.detections = c1State.detections ∧
    (handleSendMessage c1Env "read" c1State).2 = [SentTurn.userTurn "read" true]) :=
  ⟨rfl, rfl, rfl, rfl,
    c1_capability_throw_amended c1Env "read" "ocr down" "blob:img" c1State none none
      [] ("d", "image/png") rfl rfl rfl rfl⟩

theorem update_append_fresh (logs : List ToolLog) (e : ToolLog) (i : Nat)
    (tr : Option ToolResult) (hei : e.id = i) (h : ∀ l ∈ logs, l.id ≠ i) :
    (logs ++ [e]).map (fun l =>
        if l.id = i then { l with status := Status.success, result := tr } else l) =
      logs ++ [{ e with status := Status.success, result := tr }] := by
  rw [List.map_append]
  congr 1
  · have h2 : ∀ l ∈ logs,
        (fun l =>
          if l.id = i then { l with status := Status.success, result := tr } else l) l =
        id l := by
      intro l hl
      simp [if_neg (h l hl)]
    rw [List.map_congr_left h2, List.map_id]
  · simp [hei]

/-- C6 amended: a `ToolRequest` whose name matches no registered capability
is not rejected with any error: the `toolResult` variable stays undefined,
the ledger entry is nevertheless marked `success` with an undefined result
snapshot, that undefined result is fed back to the model in the batched
follow-up turn, and the exchange continues to the final answer. -/
theorem c6_unknown_tool_amended (env : Env) (text url t : String)
    (st : AppState) (fc : FunctionCall) (rt : Option String)
    (h1 : fc.name ≠ "dino_v3_detect") (h2 : fc.name ≠ "ocr_engine")
    (hresp : env.responses =
      [.ok { text := rt, functionCalls := [fc] },
       .ok { text := some t, functionCalls := [] }])
    (himg : st.currentImage = some url)
    (hfresh : ∀ l ∈ st.toolLogs, l.id ≠ st.nextId)
    (ht : t ≠ "") :
    (handleSendMessage env text st).2 =
      [SentTurn.userTurn text st.currentImageBase64.isSome,
       SentTurn.toolResults [{ name := fc.name, result := none }]] ∧
    (handleSendMessage env text st).1.toolLogs =
      st.toolLogs ++ [{ id := st.nextId,
                        toolName := fc.name,
                        status := Status.success,
                        args := fc.targetObjects,
                        result := none }] ∧
    (handleSendMessage env text st).1.messages =
      st.messages ++ [{ sender := Sender.user, text := text },
        { sender := Sender.model, text := t }] ∧
    (handleSendMessage env text st).1.detections = st.detections := by
  simp only [handleSendMessage, hresp, toolLoop, processRound, stepCall, himg,
    if_neg h1, if_neg h2, if_neg ht, mergeDetections]
  rw [update_append_fresh st.toolLogs _ st.nextId none rfl hfresh]
  refine ⟨?_, ?_, ?_, ?_⟩ <;> simp

/-- Concrete environment for C6: the model requests a tool name that
matches no registered capability, then finishes. -/
def c6Env : Env :=
  { rawDetections := .ok [],
    ocrOutcome := .ok [],
    modelReady := true,
    responses :=
      [.ok { text := none,
             functionCalls := [{ name := "made_up_tool", targetObjects := none }] },
       .ok { text := some "done", functionCalls := [] }] }

/-- Concrete starting state for C6. -/
def c6State : AppState :=
  { messages := [], toolLogs := [], isAnalyzing := false,
    currentImage := some "blob:img", currentImageBase64 := some ("d", "image/png"),
    detections := [], nextId := 0 }

/-- C6 counterexample: the unknown tool name `made_up_tool` does not fail
with any error and no structured error result is produced: the ledger entry
is marked `success` with an undefined (`none`) result, and the follow-up
turn feeds that undefined result back. -/
theorem c6_unknown_tool_counterexample :
    (handleSendMessage c6Env "x" c6State).1.toolLogs =
      [{ id := 0, toolName := "made_up_tool", status := Status.success,
         args := none, result := none }] ∧
    (handleSendMessage c6Env "x" c6State).2 =
      [SentTurn.userTurn "x" true,
       SentTurn.toolResults [{ name := "made_up_tool", result := none }]] := by
  decide

/-- Witness for the amended C6 at the concrete unknown-tool environment. -/
theorem c6_unknown_tool_witness :
    ("made_up_tool" : String) ≠ "dino_v3_detect" ∧
    ("made_up_tool" : String) ≠ "ocr_engine" ∧
    c6Env.responses =
      [.ok { text := none,
             functionCalls := [{ name := "made_up_tool", targetObjects := none }] },
       .ok { text := some "done", functionCalls := [] }] ∧
    c6State.currentImage = some "blob:img" ∧
    (∀ l ∈ c6State.toolLogs, l.id ≠ c6State.nextId) ∧
    ("done" : String) ≠ "" ∧
    ((handleSendMessage c6Env "x" c6State).2 =
      [SentTurn.userTurn "x" c6State.currentImageBase64.isSome,
       SentTurn.toolResults [{ name := ("made_up_tool" : String), result := none }]] ∧
    (handleSendMessage c6Env "x" c6State).1.toolLogs =
      c6State.toolLogs ++ [{ id := c6State.nextId,
                             toolName := ("made_up_tool" : String),
                             status := Status.success,
                             args := none,
                             result := none }] ∧
    (handleSendMessage c6Env "x" c6State).1.messages =
      c6State.messages ++ [{ sender := Sender.user, text := "x" },
        { sender := Sender.model, text := "done" }] ∧
    (handleSendMessage c6Env "x" c6State).1.detections = c6State.detections) :=
  ⟨by decide, by decide, rfl, rfl, by simp [c6State], by decide,
    c6_unknown_tool_amended c6Env "x" "blob:img" "done" c6State
      { name := "made_up_tool", targetObjects := none } none
      (by decide) (by decide) rfl rfl (by simp [c6State]) (by decide)⟩

/-- Concrete environment for the C3 witness: one model turn with two tool
requests, then a final turn. -/
def c3Env : Env :=
  { rawDetections := .ok [],
    ocrOutcome := .ok [],
    modelReady := true,
    responses :=
      [.ok { text := none,
             functionCalls := [{ name := "dino_v3_detect", targetObjects := none },
                               { name := "ocr_engine", targetObjects := none }] },
       .ok { text := some "done", functionCalls := [] }] }

/-- Concrete starting state for the C3 witness. -/
def c3State : AppState :=
  { messages := [], toolLogs := [], isAnalyzing := false,
    currentImage := some "blob:img", currentImageBase64 := some ("d", "image/png"),
    detections := [], nextId := 0 }

/-- Witness for C3 at a concrete two-request model turn. -/
theorem c3_two_requests_one_followup_witness :
    c3Env.ocrOutcome = .ok [] ∧
    c3Env.responses =
      [.ok { text := none,
             functionCalls := [{ name := ("dino_v3_detect" : String), targetObjects := none },
                               { name := ("ocr_engine" : String), targetObjects := none }] },
       .ok { text := some "done", functionCalls := [] }] ∧
    (((handleSendMessage c3Env "go" c3State).2).map turnResultNames =
        [none, some [("dino_v3_detect" : String), ("ocr_engine" : String)]] ∧
    (handleSendMessage c3Env "go" c3State).1.toolLogs.map ToolLog.toolName =
        c3State.toolLogs.map ToolLog.toolName ++
          [("dino_v3_detect" : String), ("ocr_engine" : String)] ∧
    (handleSendMessage c3Env "go" c3State).1.toolLogs.length =
        c3State.toolLogs.length + 2) :=
  ⟨rfl, rfl,
    c3_two_requests_one_followup c3Env "go" c3State
      { name := "dino_v3_detect", targetObjects := none }
      { name := "ocr_engine", targetObjects := none }
      none (some "done") [] rfl rfl⟩
